import Mathlib

/-!
Verification of the registration/login repository: a shallow embedding of
the NestJS backend authentication service (register, login, refresh) and of
the React client request coordinator (axios interceptors with the single
in-flight refresh queue), with theorems settling the specification claims.
-/

namespace RegLogin

/-! ## Backend data model

Embeds `AuthenticationService` (registerUser, loginUser) from the backend
sources, the `RegisterUserDto` validation rules, and the HTTP error
taxonomy used by the NestJS exceptions. -/

/-- HTTP-level errors thrown by the backend: `ConflictException` (409),
`UnauthorizedException` (401), and the validation-pipe error (400) whose
payload is the list of constraint messages. -/
inductive HttpError where
  | conflict (msg : String)
  | unauthorized (msg : String)
  | validation (msgs : List String)
  deriving Repr, DecidableEq

/-- The HTTP status code each backend exception maps to. -/
def HttpError.status : HttpError → Nat
  | .conflict _ => 409
  | .unauthorized _ => 401
  | .validation _ => 400

/-- Model of `bcrypt.hash(password, saltRounds)`: an injective, deterministic
tagging of the plaintext. The real bcrypt output is opaque; the embedding
only relies on the hash being distinct from the plaintext and on
`bcrypt.compare` succeeding exactly on the hashed password. -/
def bcryptHash (password : String) (saltRounds : Nat) : String :=
  "bcrypt$" ++ toString saltRounds ++ "$" ++ password

/-- Model of `bcrypt.compare(password, hash)` for hashes produced with the
salt-round count 10 used by `registerUser`. -/
def bcryptCompare (password hash : String) : Bool :=
  hash == bcryptHash password 10

/-- A persisted user document (`User` schema): Mongo `_id` modelled as a
natural number, plus `email`, `passwordHash`, optional `name`. -/
structure StoredUser where
  id : Nat
  email : String
  passwordHash : String
  name : Option String
  deriving Repr, DecidableEq

/-- The user collection together with the id generator. -/
structure UserStore where
  users : List StoredUser
  nextId : Nat
  deriving Repr, DecidableEq

/-- The user object returned to callers: `savedUser.toJSON()` with the
`passwordHash` key destructured away (`const { passwordHash: _, ...result }`).
The type itself has no password-hash field. -/
structure PublicUser where
  id : Nat
  email : String
  name : Option String
  deriving Repr, DecidableEq

/-- The JWT payload signed by `loginUser`:
`{ email: user.email, sub: user._id, name: user.name }`. -/
structure JwtPayload where
  email : String
  sub : Nat
  name : Option String
  deriving Repr, DecidableEq

/-- Model of `jwtService.sign`: the access token is the signed payload; the
signature is opaque, so decoding a token recovers exactly its payload. -/
structure AccessToken where
  payload : JwtPayload
  deriving Repr, DecidableEq

/-- Decoding an access token (signature checking is not modelled; validity
of the signature is the identity here). -/
def decodeToken (t : AccessToken) : JwtPayload := t.payload

/-- `this.userModel.findOne({ email }).exec()`. -/
def findByEmail (store : UserStore) (email : String) : Option StoredUser :=
  store.users.find? (fun u => u.email == email)

/-- `AuthenticationService.registerUser`: reject duplicate email with
`ConflictException`, otherwise hash the password with bcrypt (10 rounds),
save the new document, and return its JSON without `passwordHash`. The
store is returned unchanged on error. -/
def registerUser (store : UserStore) (email password : String)
    (name : Option String) : Except HttpError PublicUser × UserStore :=
  match findByEmail store email with
  | some _ => (.error (.conflict "User with this email already exists"), store)
  | none =>
      let hashedPassword := bcryptHash password 10
      let newUser : StoredUser :=
        { id := store.nextId, email := email, passwordHash := hashedPassword,
          name := name }
      let savedStore : UserStore :=
        { users := store.users ++ [newUser], nextId := store.nextId + 1 }
      (.ok { id := newUser.id, email := newUser.email, name := newUser.name },
       savedStore)

/-- What `loginUser` returns on success: the user JSON without
`passwordHash`, and the signed access token. -/
structure LoginResult where
  user : PublicUser
  accessToken : AccessToken
  deriving Repr, DecidableEq

/-- `AuthenticationService.loginUser`: unknown email and wrong password both
throw `UnauthorizedException("Invalid credentials")`; on success the JWT
payload `{email, sub, name}` is signed and returned with the public user. -/
def loginUser (store : UserStore) (email password : String) :
    Except HttpError LoginResult :=
  match findByEmail store email with
  | none => .error (.unauthorized "Invalid credentials")
  | some user =>
      if bcryptCompare password user.passwordHash then
        .ok { user := { id := user.id, email := user.email, name := user.name },
              accessToken :=
                { payload := { email := user.email, sub := user.id,
                               name := user.name } } }
      else .error (.unauthorized "Invalid credentials")

/-- Approximation of the class-validator `IsEmail` check used by both DTOs:
a nonempty local part, one `@`, and a nonempty domain. The exact
class-validator email grammar is not reproduced; no claim depends on its
details. -/
def isValidEmail (s : String) : Bool :=
  let cs := s.data
  cs.count '@' == 1 &&
  !(cs.takeWhile (fun c => c != '@')).isEmpty &&
  !((cs.dropWhile (fun c => c != '@')).drop 1).isEmpty

/-- The `RegisterUserDto` constraint checks, in field order: `IsEmail` and
`IsNotEmpty` on `email`; `IsString`, `IsNotEmpty` and `MinLength(8)` on
`password`; `name` is an optional string with no further constraint. Each
failed constraint contributes its message to the validation payload. -/
def validateRegisterUserDto (email password : String) : List String :=
  (if isValidEmail email then [] else ["Email must be a valid email address."])
    ++ (if email.isEmpty then ["email should not be empty"] else [])
    ++ (if password.isEmpty then ["password should not be empty"] else [])
    ++ (if 8 ≤ password.length then []
        else ["Password must be at least 8 characters long."])

/-- Modelled from the spec: the registration of a validation pipe (the
framework glue that runs the DTO constraints before the controller) is not
among the repository sources; per the spec error taxonomy, malformed
registration input is a ValidationError surfaced to the caller, so the
`POST /register` route validates the `RegisterUserDto` payload and only then
invokes `AuthenticationService.registerUser`. On a validation failure the
store is untouched. -/
def registerRoute (store : UserStore) (email password : String)
    (name : Option String) : Except HttpError PublicUser × UserStore :=
  match validateRegisterUserDto email password with
  | [] => registerUser store email password name
  | errs => (.error (.validation errs), store)

/-- Modelled from the spec: `AuthenticationController.refresh`
(`POST /authentication/refresh`) calls `AuthenticationService.refreshToken`,
whose implementation is not among the repository sources. Per the spec the
endpoint "exchanges a refresh artifact for a new access token; 401 on
failure". `verify` is the opaque verification of the refresh artifact,
returning the subject payload exactly when the artifact is valid. -/
def refreshToken (verify : String → Option JwtPayload) (artifact : String) :
    Except HttpError AccessToken :=
  match verify artifact with
  | some payload => .ok { payload := payload }
  | none => .error (.unauthorized "Invalid refresh token")

/-- Repeated login attempts against the same collection: `loginUser` only
reads the user collection, so every attempt observes the same store. -/
def attemptLogins (store : UserStore) (email password : String) :
    Nat → List (Except HttpError LoginResult)
  | 0 => []
  | k + 1 => loginUser store email password :: attemptLogins store email password k

/-! ## Client request coordinator

Embeds the axios response interceptor of
`useAxiosInterceptorClient` (frontend sources): the module-level
`isRefreshing` flag and `failedQueue`, `processQueue`, `clearAuthState`,
and the 401 refresh-and-retry flow. -/

/-- The client-local storage key holding the access token. -/
def TOKEN_KEY : String := "authToken"

/-- An axios request config as the interceptor sees it: the request `url`,
the `_retry` marker, and the `Authorization` header if set. -/
structure AxiosRequest where
  url : String
  retry : Bool
  authHeader : Option String
  deriving Repr, DecidableEq

/-- An axios response error: `error.config` is the originating request,
`error.response.status` the HTTP status. -/
structure AxiosError where
  config : AxiosRequest
  status : Nat
  deriving Repr, DecidableEq

/-- The client-process-wide coordinator state: the module-level
`isRefreshing` flag and `failedQueue`, the stored token (the local-storage
slot under `TOKEN_KEY`), the `isAuthenticated` React state, and whether the
session-expired notice has been shown. -/
structure CoordState where
  isRefreshing : Bool
  failedQueue : List AxiosRequest
  storedToken : Option String
  isAuthenticated : Bool
  sessionExpiredShown : Bool
  deriving Repr, DecidableEq

/-- `clearAuthState`: removes the token from local storage and drops the
authenticated state (returning the UI to the login view). -/
def clearAuthState (s : CoordState) : CoordState :=
  { s with storedToken := none, isAuthenticated := false }

/-- What the response interceptor decides to do with a failed response:
propagate the rejection, clear auth state and propagate (auth endpoints),
enqueue the continuation behind the in-flight refresh, or start a new
refresh exchange (carrying the request now marked `_retry`). -/
inductive InterceptAction where
  | rejectOriginal (e : AxiosError)
  | clearAndReject (e : AxiosError)
  | enqueued
  | dispatchRefresh (origReq : AxiosRequest)
  deriving Repr, DecidableEq

/-- The response interceptor error branch of `useAxiosInterceptorClient`:
on a 401 for a not-yet-retried request, auth endpoints clear auth state and
fail; with a refresh in flight the continuation is pushed onto
`failedQueue`; otherwise the request is marked retried, `isRefreshing` is
set and a refresh exchange is dispatched. Every other error propagates. -/
def responseInterceptor (s : CoordState) (error : AxiosError) :
    CoordState × InterceptAction :=
  let originalRequest := error.config
  if error.status == 401 && !originalRequest.retry then
    if originalRequest.url == "/refresh-token" || originalRequest.url == "/login" then
      (clearAuthState s, .clearAndReject error)
    else if s.isRefreshing then
      ({ s with failedQueue := s.failedQueue ++ [originalRequest] }, .enqueued)
    else
      ({ s with isRefreshing := true },
       .dispatchRefresh { originalRequest with retry := true })
  else
    (s, .rejectOriginal error)

/-- The final fate of one of the N logical requests. -/
inductive Outcome where
  | replayed (req : AxiosRequest)
  | rejected (e : AxiosError)
  deriving Repr, DecidableEq

/-- `processQueue` combined with the handlers attached to each queued
promise: resolving with a token makes the queued request set its bearer
header, mark itself retried and replay; rejecting propagates the error to
the queued caller. The queue is cleared by the caller afterwards. -/
def processQueue (queue : List AxiosRequest) (error : Option AxiosError)
    (token : Option String) : List Outcome :=
  queue.map fun r =>
    match error with
    | some e => .rejected e
    | none => .replayed { r with
        authHeader := token.map (fun t => "Bearer " ++ t), retry := true }

/-- The try/catch around `POST /refresh-token` in the interceptor, run once
the refresh settles. Success: store the new token, clear `isRefreshing`,
release the queue with the token, replay the initiating request with the
new bearer header. Failure: clear `isRefreshing`, release the queue with
the refresh error, clear auth state, show the session-expired notice, and
reject the initiating caller with the refresh error. Returns the state, the
queued outcomes, and the initiating request outcome. -/
def handleRefreshOutcome (s : CoordState) (origReq : AxiosRequest)
    (result : Except AxiosError String) :
    CoordState × List Outcome × Outcome :=
  match result with
  | .ok newAccessToken =>
      let queued := processQueue s.failedQueue none (some newAccessToken)
      let s1 : CoordState :=
        { s with storedToken := some newAccessToken, isRefreshing := false,
                 failedQueue := [] }
      (s1, queued,
       .replayed { origReq with authHeader := some ("Bearer " ++ newAccessToken) })
  | .error refreshError =>
      let queued := processQueue s.failedQueue (some refreshError) none
      let s1 := clearAuthState
        { s with isRefreshing := false, failedQueue := [],
                 sessionExpiredShown := true }
      (s1, queued, .rejected refreshError)

/-- A fresh non-auth-endpoint request (the protected profile fetch). -/
def profileReq : AxiosRequest :=
  { url := "/profile", retry := false, authHeader := none }

/-- The 401 response error for a request. -/
def err401 (r : AxiosRequest) : AxiosError := { config := r, status := 401 }

/-- Deliver `n` 401 responses for fresh non-auth requests to the
interceptor, one after another on the single-threaded event loop. Returns
the resulting state and the list of refresh exchanges dispatched (each with
its initiating request). -/
def deliver401s (s : CoordState) : Nat → CoordState × List AxiosRequest
  | 0 => (s, [])
  | m + 1 =>
      match responseInterceptor s (err401 profileReq) with
      | (s1, .dispatchRefresh r) =>
          let (s2, ds) := deliver401s s1 m
          (s2, r :: ds)
      | (s1, _) =>
          deliver401s s1 m

/-- The coordinator state with no refresh in flight, an empty queue, and a
(stale) stored token. -/
def initialCoordState (tok : Option String) : CoordState :=
  { isRefreshing := false, failedQueue := [], storedToken := tok,
    isAuthenticated := tok.isSome, sessionExpiredShown := false }

/-- The spec burst scenario: N concurrent requests each observe a 401 while
no refresh is in flight; then the refresh exchange settles with `result`.
Returns the number of refresh exchanges dispatched and the final outcome of
each of the N requests (queued requests first, the initiating request
last). -/
def burstScenario (n : Nat) (result : Except AxiosError String) :
    Nat × List Outcome :=
  let (s1, ds) := deliver401s (initialCoordState (some "staleToken")) n
  match ds with
  | initiator :: _ =>
      let (_, queued, initOut) := handleRefreshOutcome s1 initiator result
      (ds.length, queued ++ [initOut])
  | [] => (0, [])

/-! ## Helper lemmas -/

theorem bcryptHash_inj {p q : String} {r : Nat}
    (h : bcryptHash p r = bcryptHash q r) : p = q := by
  unfold bcryptHash at h
  have hd := congrArg String.data h
  simp only [String.data_append, List.append_assoc] at hd
  have := List.append_cancel_left (List.append_cancel_left
    (List.append_cancel_left hd))
  exact String.ext this

theorem bcryptCompare_self (p : String) :
    bcryptCompare p (bcryptHash p 10) = true := by
  simp [bcryptCompare]

theorem bcryptCompare_wrong {p q : String} (h : q ≠ p) :
    bcryptCompare q (bcryptHash p 10) = false := by
  simp only [bcryptCompare, beq_eq_false_iff_ne, ne_eq]
  intro heq
  exact h (bcryptHash_inj heq).symm

theorem bcryptHash_ne (p : String) (r : Nat) : bcryptHash p r ≠ p := by
  intro h
  have h7 : ("bcrypt$" : String).length = 7 := rfl
  have h1 : ("$" : String).length = 1 := rfl
  have hl := congrArg String.length h
  rw [bcryptHash, String.length_append, String.length_append,
    String.length_append] at hl
  omega

theorem find?_snoc_none {l : List StoredUser} {p : StoredUser → Bool}
    {u : StoredUser} (h : l.find? p = none) (hu : p u = true) :
    (l ++ [u]).find? p = some u := by
  rw [List.find?_append, h]
  simp [List.find?_cons, hu]

/-- Closed form of a successful registration against a store with no user
under the given email. -/
theorem registerUser_fresh (store : UserStore) (email password : String)
    (name : Option String) (h : findByEmail store email = none) :
    registerUser store email password name =
      (.ok { id := store.nextId, email := email, name := name },
       { users := store.users ++
           [{ id := store.nextId, email := email,
              passwordHash := bcryptHash password 10, name := name }],
         nextId := store.nextId + 1 }) := by
  simp [registerUser, h]

theorem loginUser_wrong_password (store : UserStore) (email wrong : String)
    (u : StoredUser) (hfe : findByEmail store email = some u)
    (hc : bcryptCompare wrong u.passwordHash = false) :
    loginUser store email wrong = .error (.unauthorized "Invalid credentials") := by
  simp [loginUser, hfe, hc]

theorem attemptLogins_all_eq (store : UserStore) (email wrong : String)
    (e : Except HttpError LoginResult)
    (h : loginUser store email wrong = e) :
    ∀ k, ∀ r ∈ attemptLogins store email wrong k, r = e := by
  intro k
  induction k with
  | zero => intro r hr; simp [attemptLogins] at hr
  | succ m ih =>
      intro r hr
      rw [attemptLogins] at hr
      rcases List.mem_cons.mp hr with h1 | h2
      · rw [h1, h]
      · exact ih r h2

/-! ## Claims about the backend service -/

/-- C4: for a registered user, login with the correct email and password
succeeds and the decoded access token subject, email and name match the
registered identity; login with a wrong password for that email fails with
the 401 Invalid-credentials error on every one of any number of attempts. -/
theorem login_matches_registered_identity
    (store store2 : UserStore) (email password : String) (name : Option String)
    (pu : PublicUser)
    (hreg : registerUser store email password name = (.ok pu, store2))
    (wrong : String) (hw : wrong ≠ password) :
    (∃ lr : LoginResult,
        loginUser store2 email password = .ok lr ∧
        (decodeToken lr.accessToken).sub = pu.id ∧
        (decodeToken lr.accessToken).email = email ∧
        (decodeToken lr.accessToken).name = name ∧
        lr.user = pu) ∧
    ((HttpError.unauthorized "Invalid credentials").status = 401 ∧
     ∀ k, ∀ r ∈ attemptLogins store2 email wrong k,
        r = .error (.unauthorized "Invalid credentials")) := by
  cases hfe : findByEmail store email with
  | some u => simp [registerUser, hfe] at hreg
  | none =>
      rw [registerUser_fresh store email password name hfe,
        Prod.mk.injEq] at hreg
      obtain ⟨h1, h2⟩ := hreg
      have hpu : pu = { id := store.nextId, email := email, name := name } := by
        cases h1; rfl
      have hfe2 : findByEmail store2 email =
          some { id := store.nextId, email := email,
                 passwordHash := bcryptHash password 10, name := name } := by
        rw [← h2]
        exact find?_snoc_none hfe (by simp)
      constructor
      · refine ⟨{ user := { id := store.nextId, email := email, name := name },
                  accessToken := { payload :=
                    { email := email, sub := store.nextId, name := name } } },
                ?_, ?_, ?_, ?_, ?_⟩
        · simp [loginUser, hfe2, bcryptCompare_self]
        · simp [decodeToken, hpu]
        · simp [decodeToken]
        · simp [decodeToken]
        · simp [hpu]
      · refine ⟨rfl, ?_⟩
        exact attemptLogins_all_eq store2 email wrong _
          (loginUser_wrong_password store2 email wrong _ hfe2
            (bcryptCompare_wrong hw))

/-- An empty user collection. -/
def sampleStore0 : UserStore := { users := [], nextId := 0 }

/-- The collection after registering a@x.com with password1. -/
def sampleStore1 : UserStore :=
  { users := [{ id := 0, email := "a@x.com",
                passwordHash := bcryptHash "password1" 10, name := none }],
    nextId := 1 }

/-- Witness for C4 at a concrete registered user. -/
theorem login_matches_registered_identity_witness :
    registerUser sampleStore0 "a@x.com" "password1" none =
      (.ok { id := 0, email := "a@x.com", name := none }, sampleStore1) ∧
    "password2" ≠ "password1" ∧
    ((∃ lr : LoginResult,
        loginUser sampleStore1 "a@x.com" "password1" = .ok lr ∧
        (decodeToken lr.accessToken).sub = 0 ∧
        (decodeToken lr.accessToken).email = "a@x.com" ∧
        (decodeToken lr.accessToken).name = none ∧
        lr.user = { id := 0, email := "a@x.com", name := none }) ∧
     ((HttpError.unauthorized "Invalid credentials").status = 401 ∧
      ∀ k, ∀ r ∈ attemptLogins sampleStore1 "a@x.com" "password2" k,
        r = .error (.unauthorized "Invalid credentials"))) :=
  ⟨rfl, by decide,
   login_matches_registered_identity sampleStore0 sampleStore1 "a@x.com"
     "password1" none { id := 0, email := "a@x.com", name := none }
     rfl "password2" (by decide)⟩

/-- C5: with a fresh email, a first valid registration succeeds with the
created user, and a second valid registration under the same email fails
with the 409 conflict error, leaving the stored collection unchanged. -/
theorem duplicate_registration_conflict
    (store : UserStore) (email p1 p2 : String) (n1 n2 : Option String)
    (hfresh : findByEmail store email = none)
    (hv1 : validateRegisterUserDto email p1 = [])
    (hv2 : validateRegisterUserDto email p2 = []) :
    ∃ pu store2,
      registerRoute store email p1 n1 = (.ok pu, store2) ∧
      (registerRoute store2 email p2 n2).1 =
        .error (.conflict "User with this email already exists") ∧
      (HttpError.conflict "User with this email already exists").status = 409 ∧
      (registerRoute store2 email p2 n2).2 = store2 := by
  have hfe2 : findByEmail
      { users := store.users ++
          [{ id := store.nextId, email := email,
             passwordHash := bcryptHash p1 10, name := n1 }],
        nextId := store.nextId + 1 } email =
      some { id := store.nextId, email := email,
             passwordHash := bcryptHash p1 10, name := n1 } :=
    find?_snoc_none hfresh (by simp)
  refine ⟨{ id := store.nextId, email := email, name := n1 },
          { users := store.users ++
              [{ id := store.nextId, email := email,
                 passwordHash := bcryptHash p1 10, name := n1 }],
            nextId := store.nextId + 1 }, ?_, ?_, rfl, ?_⟩
  · simp only [registerRoute, hv1]
    exact registerUser_fresh store email p1 n1 hfresh
  · simp only [registerRoute, hv2]
    simp [registerUser, hfe2]
  · simp only [registerRoute, hv2]
    simp [registerUser, hfe2]

/-- Witness for C5 at a concrete email registered twice. -/
theorem duplicate_registration_conflict_witness :
    findByEmail sampleStore0 "a@x.com" = none ∧
    validateRegisterUserDto "a@x.com" "password1" = [] ∧
    validateRegisterUserDto "a@x.com" "password2" = [] ∧
    ∃ pu store2,
      registerRoute sampleStore0 "a@x.com" "password1" none = (.ok pu, store2) ∧
      (registerRoute store2 "a@x.com" "password2" none).1 =
        .error (.conflict "User with this email already exists") ∧
      (HttpError.conflict "User with this email already exists").status = 409 ∧
      (registerRoute store2 "a@x.com" "password2" none).2 = store2 :=
  ⟨by decide, by decide, by decide,
   duplicate_registration_conflict sampleStore0 "a@x.com" "password1"
     "password2" none none (by decide) (by decide) (by decide)⟩

/-- C6: a valid registration with a fresh email succeeds; the stored record
holds the bcrypt hash, which differs from the plaintext password, and the
value returned to the caller is a `PublicUser`, a record with no
password-hash field. -/
theorem register_stores_hash_only
    (store : UserStore) (email password : String) (name : Option String)
    (hfresh : findByEmail store email = none)
    (hv : validateRegisterUserDto email password = []) :
    ∃ r : StoredUser,
      (registerRoute store email password name).2.users = store.users ++ [r] ∧
      r.passwordHash = bcryptHash password 10 ∧
      r.passwordHash ≠ password ∧
      (registerRoute store email password name).1 =
        .ok { id := r.id, email := r.email, name := r.name } := by
  refine ⟨{ id := store.nextId, email := email,
            passwordHash := bcryptHash password 10, name := name }, ?_, rfl,
          bcryptHash_ne password 10, ?_⟩
  · simp only [registerRoute, hv]
    rw [registerUser_fresh store email password name hfresh]
  · simp only [registerRoute, hv]
    rw [registerUser_fresh store email password name hfresh]

/-- Witness for C6 at a concrete registration. -/
theorem register_stores_hash_only_witness :
    findByEmail sampleStore0 "a@x.com" = none ∧
    validateRegisterUserDto "a@x.com" "password1" = [] ∧
    ∃ r : StoredUser,
      (registerRoute sampleStore0 "a@x.com" "password1" none).2.users =
        sampleStore0.users ++ [r] ∧
      r.passwordHash = bcryptHash "password1" 10 ∧
      r.passwordHash ≠ "password1" ∧
      (registerRoute sampleStore0 "a@x.com" "password1" none).1 =
        .ok { id := r.id, email := r.email, name := r.name } :=
  ⟨by decide, by decide,
   register_stores_hash_only sampleStore0 "a@x.com" "password1" none
     (by decide) (by decide)⟩

/-- C9: login failure is observationally identical for an unknown email and
for a registered email with a wrong password: both runs produce the same
401 Invalid-credentials error. -/
theorem login_failure_indistinguishable
    (s1 s2 : UserStore) (e1 p1 e2 p2 realPw : String) (u : StoredUser)
    (h1 : findByEmail s1 e1 = none)
    (h2 : findByEmail s2 e2 = some u)
    (hh : u.passwordHash = bcryptHash realPw 10)
    (hw : p2 ≠ realPw) :
    loginUser s1 e1 p1 = .error (.unauthorized "Invalid credentials") ∧
    loginUser s2 e2 p2 = .error (.unauthorized "Invalid credentials") ∧
    loginUser s1 e1 p1 = loginUser s2 e2 p2 := by
  have ha : loginUser s1 e1 p1 =
      .error (.unauthorized "Invalid credentials") := by
    simp [loginUser, h1]
  have hb := loginUser_wrong_password s2 e2 p2 u h2
    (by rw [hh]; exact bcryptCompare_wrong hw)
  exact ⟨ha, hb, by rw [ha, hb]⟩

/-- Witness for C9: an unknown email against an empty store versus a wrong
password against the store holding a@x.com. -/
theorem login_failure_indistinguishable_witness :
    findByEmail sampleStore0 "b@x.com" = none ∧
    findByEmail sampleStore1 "a@x.com" =
      some { id := 0, email := "a@x.com",
             passwordHash := bcryptHash "password1" 10, name := none } ∧
    "password2" ≠ "password1" ∧
    (loginUser sampleStore0 "b@x.com" "whatever" =
       .error (.unauthorized "Invalid credentials") ∧
     loginUser sampleStore1 "a@x.com" "password2" =
       .error (.unauthorized "Invalid credentials") ∧
     loginUser sampleStore0 "b@x.com" "whatever" =
       loginUser sampleStore1 "a@x.com" "password2") :=
  ⟨by decide, by decide, by decide,
   login_failure_indistinguishable sampleStore0 sampleStore1 "b@x.com"
     "whatever" "a@x.com" "password2" "password1"
     { id := 0, email := "a@x.com",
       passwordHash := bcryptHash "password1" 10, name := none }
     (by decide) (by decide) rfl (by decide)⟩

/-- C10: a registration payload whose password is shorter than 8 characters
is rejected with a validation error carrying the MinLength(8) message, and
the stored user collection is unchanged. -/
theorem short_password_rejected
    (store : UserStore) (email password : String) (name : Option String)
    (h : password.length < 8) :
    (registerRoute store email password name).2 = store ∧
    ∃ msgs, (registerRoute store email password name).1 =
        .error (.validation msgs) ∧
      "Password must be at least 8 characters long." ∈ msgs := by
  have hle : ¬ 8 ≤ password.length := by omega
  have hmem : "Password must be at least 8 characters long." ∈
      validateRegisterUserDto email password := by
    unfold validateRegisterUserDto
    simp [hle]
  cases hval : validateRegisterUserDto email password with
  | nil => rw [hval] at hmem; simp at hmem
  | cons a l =>
      rw [hval] at hmem
      refine ⟨?_, a :: l, ?_, hmem⟩
      · simp [registerRoute, hval]
      · simp [registerRoute, hval]

/-- Witness for C10 at the frontend-acceptable 6-character password. -/
theorem short_password_rejected_witness :
    ("pass12" : String).length < 8 ∧
    ((registerRoute sampleStore0 "a@x.com" "pass12" none).2 = sampleStore0 ∧
     ∃ msgs, (registerRoute sampleStore0 "a@x.com" "pass12" none).1 =
         .error (.validation msgs) ∧
       "Password must be at least 8 characters long." ∈ msgs) :=
  ⟨by decide, short_password_rejected sampleStore0 "a@x.com" "pass12" none
    (by decide)⟩

/-! ## Claims about the client request coordinator -/

/-- With a refresh already in flight, delivering any number of further 401
responses for fresh non-auth requests only extends the queue: no refresh
exchange is dispatched. -/
theorem deliver401s_refreshing (n : Nat) :
    ∀ s : CoordState, s.isRefreshing = true →
    deliver401s s n =
      ({ s with failedQueue := s.failedQueue ++ List.replicate n profileReq },
       []) := by
  induction n with
  | zero => intro s hs; simp [deliver401s]
  | succ m ih =>
      intro s hs
      have hstep : responseInterceptor s (err401 profileReq) =
          ({ s with failedQueue := s.failedQueue ++ [profileReq] },
           .enqueued) := by
        simp [responseInterceptor, err401, profileReq, hs]
      rw [deliver401s, hstep]
      show deliver401s
        { s with failedQueue := s.failedQueue ++ [profileReq] } m = _
      rw [ih { s with failedQueue := s.failedQueue ++ [profileReq] } hs]
      simp [List.append_assoc, List.replicate_succ]

/-- From the idle state, a burst of n+1 fresh 401s dispatches exactly one
refresh exchange (the first request, now marked retried) and queues the
remaining n requests. -/
theorem deliver401s_from_idle (n : Nat) :
    deliver401s (initialCoordState (some "staleToken")) (n + 1) =
      ({ isRefreshing := true, failedQueue := List.replicate n profileReq,
         storedToken := some "staleToken", isAuthenticated := true,
         sessionExpiredShown := false },
       [{ url := "/profile", retry := true, authHeader := none }]) := by
  have hstep : responseInterceptor (initialCoordState (some "staleToken"))
      (err401 profileReq) =
      ({ initialCoordState (some "staleToken") with isRefreshing := true },
       .dispatchRefresh { url := "/profile", retry := true,
                          authHeader := none }) := rfl
  rw [deliver401s, hstep]
  show (match deliver401s
      { initialCoordState (some "staleToken") with isRefreshing := true } n
    with
    | (s2, ds) => (s2, ({ url := "/profile", retry := true,
                          authHeader := none } : AxiosRequest) :: ds)) = _
  rw [deliver401s_refreshing n _ rfl]
  simp [initialCoordState]

/-- Closed form of the burst scenario when the refresh succeeds: one
dispatch, every request replayed with the new bearer credential. -/
theorem burstScenario_ok (m : Nat) (t : String) :
    burstScenario (m + 1) (.ok t) =
      (1, List.replicate (m + 1)
        (.replayed { url := "/profile", retry := true,
                     authHeader := some ("Bearer " ++ t) })) := by
  rw [burstScenario, deliver401s_from_idle m]
  simp [handleRefreshOutcome, processQueue, List.map_replicate,
    profileReq, List.replicate_succ']

/-- Closed form of the burst scenario when the refresh fails: one dispatch,
every request rejected with the refresh error. -/
theorem burstScenario_error (m : Nat) (e : AxiosError) :
    burstScenario (m + 1) (.error e) =
      (1, List.replicate (m + 1) (.rejected e)) := by
  rw [burstScenario, deliver401s_from_idle m]
  simp [handleRefreshOutcome, processQueue, List.map_replicate,
    profileReq, List.replicate_succ']

/-- C1: for N concurrent requests each observing a 401 while no refresh is
in flight, exactly one refresh exchange is dispatched; after it settles,
all N requests are replayed with the new credential if the refresh
succeeded, and all N are rejected if it failed. -/
theorem burst_single_refresh (n : Nat) (hn : 0 < n)
    (result : Except AxiosError String) :
    (burstScenario n result).1 = 1 ∧
    (burstScenario n result).2.length = n ∧
    ∀ o ∈ (burstScenario n result).2,
      o = match result with
          | .ok t => .replayed { url := "/profile", retry := true,
                                 authHeader := some ("Bearer " ++ t) }
          | .error e => .rejected e := by
  obtain ⟨m, rfl⟩ : ∃ m, n = m + 1 := ⟨n - 1, by omega⟩
  cases result with
  | ok t =>
      rw [burstScenario_ok m t]
      exact ⟨rfl, by simp, fun o ho => List.eq_of_mem_replicate ho⟩
  | error e =>
      rw [burstScenario_error m e]
      exact ⟨rfl, by simp, fun o ho => List.eq_of_mem_replicate ho⟩

/-- Witness for C1 with three concurrent requests and a successful
refresh. -/
theorem burst_single_refresh_witness :
    0 < 3 ∧
    ((burstScenario 3 (.ok "newTok")).1 = 1 ∧
     (burstScenario 3 (.ok "newTok")).2.length = 3 ∧
     ∀ o ∈ (burstScenario 3 (.ok "newTok")).2,
       o = .replayed { url := "/profile", retry := true,
                       authHeader := some ("Bearer " ++ "newTok") }) :=
  ⟨by decide, burst_single_refresh 3 (by decide) (.ok "newTok")⟩

/-- A coordinator state mid-refresh with one queued request. -/
def c2State : CoordState :=
  { isRefreshing := true, failedQueue := [profileReq],
    storedToken := some "staleToken", isAuthenticated := true,
    sessionExpiredShown := false }

/-- The initiating request of the in-flight refresh (already marked
retried). -/
def c2OrigReq : AxiosRequest :=
  { url := "/profile", retry := true, authHeader := none }

/-- The error produced by the failing `POST /refresh-token` exchange. -/
def c2RefreshErr : AxiosError :=
  { config := { url := "/refresh-token", retry := false, authHeader := none },
    status := 401 }

/-- C2 counterexample: when the refresh exchange fails, the initiating
caller is NOT rejected with the original request 401 error — the code
rejects with the refresh exchange error instead. -/
theorem refresh_failure_not_original_error :
    (handleRefreshOutcome c2State c2OrigReq (.error c2RefreshErr)).2.2 ≠
      .rejected (err401 profileReq) ∧
    (handleRefreshOutcome c2State c2OrigReq (.error c2RefreshErr)).2.2 =
      .rejected c2RefreshErr ∧
    c2RefreshErr ≠ err401 profileReq := by
  refine ⟨?_, rfl, by decide⟩
  decide

/-- C2 as amended: when the refresh exchange fails, every queued
continuation is rejected, the held credential is cleared from client-local
storage, the session-expired notice is signalled, and the refresh exchange
failure (not the original request 401) propagates to the caller. -/
theorem refresh_failure_flow (s : CoordState) (origReq : AxiosRequest)
    (refreshError : AxiosError) :
    (handleRefreshOutcome s origReq (.error refreshError)).2.1 =
      s.failedQueue.map (fun _ => .rejected refreshError) ∧
    (handleRefreshOutcome s origReq (.error refreshError)).1.storedToken
      = none ∧
    (handleRefreshOutcome s origReq
      (.error refreshError)).1.isAuthenticated = false ∧
    (handleRefreshOutcome s origReq
      (.error refreshError)).1.sessionExpiredShown = true ∧
    (handleRefreshOutcome s origReq (.error refreshError)).1.isRefreshing
      = false ∧
    (handleRefreshOutcome s origReq (.error refreshError)).2.2 =
      .rejected refreshError := by
  simp [handleRefreshOutcome, processQueue, clearAuthState]

/-- C3: the refresh endpoint exchanges a valid refresh artifact for a new
access token and fails with a 401 authorization error on an invalid
artifact. -/
theorem refresh_endpoint_contract (verify : String → Option JwtPayload)
    (good bad : String) (p : JwtPayload)
    (hgood : verify good = some p) (hbad : verify bad = none) :
    refreshToken verify good = .ok { payload := p } ∧
    ∃ msg, refreshToken verify bad = .error (.unauthorized msg) ∧
      (HttpError.unauthorized msg).status = 401 := by
  refine ⟨by simp [refreshToken, hgood], "Invalid refresh token",
    by simp [refreshToken, hbad], rfl⟩

/-- A sample verifier accepting exactly one refresh artifact. -/
def sampleVerify (artifact : String) : Option JwtPayload :=
  if artifact = "refresh-artifact" then
    some { email := "a@x.com", sub := 0, name := none }
  else none

/-- Witness for C3 with a concrete artifact verifier. -/
theorem refresh_endpoint_contract_witness :
    sampleVerify "refresh-artifact" =
      some { email := "a@x.com", sub := 0, name := none } ∧
    sampleVerify "garbage" = none ∧
    (refreshToken sampleVerify "refresh-artifact" =
       .ok { payload := { email := "a@x.com", sub := 0, name := none } } ∧
     ∃ msg, refreshToken sampleVerify "garbage" =
         .error (.unauthorized msg) ∧
       (HttpError.unauthorized msg).status = 401) :=
  ⟨by decide, by decide,
   refresh_endpoint_contract sampleVerify "refresh-artifact" "garbage"
     { email := "a@x.com", sub := 0, name := none } (by decide) (by decide)⟩

/-- C7: a request already marked retried that receives a second 401 is not
queued for another refresh cycle and dispatches no refresh: the coordinator
state is unchanged and the failure propagates to the caller. -/
theorem retried_request_fails_immediately (s : CoordState)
    (req : AxiosRequest) (h : req.retry = true) :
    responseInterceptor s (err401 req) = (s, .rejectOriginal (err401 req)) := by
  simp [responseInterceptor, err401, h]

/-- Witness for C7 at a concrete retried request. -/
theorem retried_request_fails_immediately_witness :
    ({ url := "/profile", retry := true,
       authHeader := some "Bearer staleToken" } : AxiosRequest).retry
      = true ∧
    responseInterceptor (initialCoordState (some "staleToken"))
      (err401 { url := "/profile", retry := true,
                authHeader := some "Bearer staleToken" }) =
      (initialCoordState (some "staleToken"),
       .rejectOriginal (err401 { url := "/profile", retry := true,
                                 authHeader := some "Bearer staleToken" })) :=
  ⟨rfl, retried_request_fails_immediately _ _ rfl⟩

/-- C8: a 401 for a request to the login or refresh-token endpoint clears
the held credential immediately (the stored token slot becomes empty) and
neither retries nor enqueues the request — the queue and in-flight flag are
untouched — and the error propagates. -/
theorem auth_endpoint_401_clears_credential (s : CoordState)
    (req : AxiosRequest) (hr : req.retry = false)
    (hu : req.url = "/login" ∨ req.url = "/refresh-token") :
    responseInterceptor s (err401 req) =
      (clearAuthState s, .clearAndReject (err401 req)) ∧
    (clearAuthState s).storedToken = none ∧
    (clearAuthState s).isAuthenticated = false ∧
    (clearAuthState s).failedQueue = s.failedQueue ∧
    (clearAuthState s).isRefreshing = s.isRefreshing := by
  rcases hu with hu | hu <;>
    simp [responseInterceptor, err401, clearAuthState, hr, hu]

/-- Witness for C8 at a concrete 401 on the login endpoint. -/
theorem auth_endpoint_401_clears_credential_witness :
    ({ url := "/login", retry := false, authHeader := none }
       : AxiosRequest).retry = false ∧
    (({ url := "/login", retry := false, authHeader := none }
       : AxiosRequest).url = "/login" ∨
     ({ url := "/login", retry := false, authHeader := none }
       : AxiosRequest).url = "/refresh-token") ∧
    (responseInterceptor (initialCoordState (some "staleToken"))
       (err401 { url := "/login", retry := false, authHeader := none }) =
      (clearAuthState (initialCoordState (some "staleToken")),
       .clearAndReject (err401 { url := "/login", retry := false,
                                 authHeader := none })) ∧
     (clearAuthState (initialCoordState (some "staleToken"))).storedToken
        = none ∧
     (clearAuthState
        (initialCoordState (some "staleToken"))).isAuthenticated = false ∧
     (clearAuthState (initialCoordState (some "staleToken"))).failedQueue =
       (initialCoordState (some "staleToken")).failedQueue ∧
     (clearAuthState (initialCoordState (some "staleToken"))).isRefreshing =
       (initialCoordState (some "staleToken")).isRefreshing) :=
  ⟨rfl, Or.inl rfl,
   auth_endpoint_401_clears_credential _ _ rfl (Or.inl rfl)⟩

end RegLogin
